import Mathlib

/-!
Shallow embedding of the Atomix CLI queue command (`cli/commands/queue.py`).

The module is a thin HTTP adapter: `QueueResource` fetches queue names and
offers prefix completion, and the three actions (`AddAction`, `TakeAction`,
`CompleteAction`) each issue one HTTP request and inspect the status code.
Python strings are modelled through their character lists, and the Python
expression `"..." + response.status_code` (a `str + int` concatenation) is
modelled as the `TypeError` it raises at runtime.
-/

/-- A parsed JSON value, as produced by the HTTP client's `json()` method. -/
inductive JsonVal where
  | null
  | bool (b : Bool)
  | num (n : Int)
  | str (s : String)
  | arr (elems : List JsonVal)
  | obj (fields : List (String × JsonVal))

/-- A Python runtime exception relevant to this module. -/
inductive PyError where
  | typeError (msg : String)

/-- HTTP methods used by the adapter. -/
inductive Method where
  | get
  | post
  | delete

/-- An HTTP request issued through the service client. -/
structure Request where
  method : Method
  path : String
  body : Option String
  headers : List (String × String)

/-- An HTTP response as seen by an action: a status code plus the parsed JSON body. -/
structure Response where
  status_code : Nat
  body : JsonVal

/-- The response of the queue-names collection endpoint, with its body already
parsed as the JSON array of names (`response.json()`). -/
structure NamesResponse where
  status_code : Nat
  names : List String

/-- One line printed to stdout: plain text, or a parsed JSON value as printed
by `print(response.json())`. -/
inductive Output where
  | text (s : String)
  | json (j : JsonVal)

/-- The observable behaviour of running an action against a given backend
response: the requests issued, the lines printed, and either a normal return
(Python `None`) or an uncaught exception. -/
structure ExecResult where
  requests : List Request
  printed : List Output
  result : Except PyError Unit

/-- Python `s.lower()`, modelled per character (`Char.toLower`). -/
def pyLower (s : String) : String := ⟨s.data.map Char.toLower⟩

/-- Python `s.startswith(pre)`: the characters of `pre` form a prefix of the
characters of `s`. -/
def pyStartsWith (s pre : String) : Bool := pre.data.isPrefixOf s.data

/-- Python `s[n:]`: the characters of `s` after the first `n`. -/
def pyDrop (s : String) (n : Nat) : String := ⟨s.data.drop n⟩

/-- Python `s[:n]`: the first `n` characters of `s`. -/
def pyTake (s : String) (n : Nat) : String := ⟨s.data.take n⟩

/-- The message of the `TypeError` that Python raises on `str + int`. -/
def pyConcatErrMsg : String := "can only concatenate str (not \"int\") to str"

/-- Python `s + n` where `s` is a `str` and `n` an `int`: this never produces a
string, it raises `TypeError` unconditionally. The operands are kept as
arguments to mirror the source expression. -/
def strPlusInt (_s : String) (_n : Nat) : Except PyError String :=
  Except.error (PyError.typeError pyConcatErrMsg)

/-- One segment of a URL format template: literal text or a `{name}`
placeholder. -/
inductive TSeg where
  | lit (s : String)
  | var (k : String)

/-- Modelled from the spec: the service client's `url` helper (the client
itself is outside the provided source) renders a path template relative to the
backend base URL, substituting each `{name}` placeholder with the matching
keyword argument, as Python `str.format` does. -/
def renderUrl : List TSeg → List (String × String) → String
  | [], _ => ""
  | TSeg.lit s :: rest, args => s ++ renderUrl rest args
  | TSeg.var k :: rest, args => ((args.lookup k).getD "") ++ renderUrl rest args

/-- The template `/v1/primitives/queues/{queue}` used by `AddAction`. -/
def addTemplate : List TSeg :=
  [TSeg.lit "/v1/primitives/queues/", TSeg.var "queue"]

/-- The template `/v1/primitives/queues/{queue}?items={count}` used by `TakeAction`. -/
def takeTemplate : List TSeg :=
  [TSeg.lit "/v1/primitives/queues/", TSeg.var "queue", TSeg.lit "?items=", TSeg.var "count"]

/-- The template `/v1/primitives/queues/{queue}/{task}` used by `CompleteAction`. -/
def completeTemplate : List TSeg :=
  [TSeg.lit "/v1/primitives/queues/", TSeg.var "queue", TSeg.lit "/", TSeg.var "task"]

/-- `QueueResource._get_queue_names`: GET the queue collection; on HTTP 200
return the parsed JSON array of names, on any other status return `[]`. -/
def QueueResource.get_queue_names (resp : NamesResponse) : List String :=
  if resp.status_code = 200 then resp.names else []

/-- The `for queue in queues` loop of `QueueResource.suggest`: return the
remainder of the first name whose lowercased form starts with the lowercased
typed text, or `None`. -/
def suggestLoop : List String → String → Option String
  | [], _ => none
  | q :: qs, pre =>
    if pyStartsWith (pyLower q) (pyLower pre) then some (pyDrop q pre.length)
    else suggestLoop qs pre

/-- `QueueResource.suggest`. -/
def QueueResource.suggest (resp : NamesResponse) (pre : String) : Option String :=
  suggestLoop (QueueResource.get_queue_names resp) pre

/-- The generator loop of `QueueResource.complete`: yield, in order, every
fetched name whose lowercased form starts with the lowercased typed text. -/
def completeLoop : List String → String → List String
  | [], _ => []
  | q :: qs, pre =>
    if pyStartsWith (pyLower q) (pyLower pre) then q :: completeLoop qs pre
    else completeLoop qs pre

/-- `QueueResource.complete` (the generator, observed as the finite list of
yielded names). -/
def QueueResource.complete (resp : NamesResponse) (pre : String) : List String :=
  completeLoop (QueueResource.get_queue_names resp) pre

/-- `AddAction.execute`: POST the payload to `/v1/primitives/queues/{queue}`
with content-type `text/plain`; on a non-200 status build and print
`"Add failed: " + response.status_code`. -/
def AddAction.execute (queue data : String) (resp : Response) : ExecResult :=
  let req : Request :=
    { method := Method.post
      path := renderUrl addTemplate [("queue", queue)]
      body := some data
      headers := [("content-type", "text/plain")] }
  let out : List Output × Except PyError Unit :=
    if resp.status_code ≠ 200 then
      match strPlusInt "Add failed: " resp.status_code with
      | Except.ok m => ([Output.text m], Except.ok ())
      | Except.error e => ([], Except.error e)
    else ([], Except.ok ())
  { requests := [req], printed := out.1, result := out.2 }

/-- `TakeAction.execute`: GET `/v1/primitives/queues/{queue}?items={count}`
(`count` defaults to 1); on 200 print the parsed JSON body, otherwise build and
print `"Take failed: " + response.status_code`. -/
def TakeAction.execute (queue : String) (resp : Response) (count : Nat := 1) : ExecResult :=
  let req : Request :=
    { method := Method.get
      path := renderUrl takeTemplate [("queue", queue), ("count", toString count)]
      body := none
      headers := [] }
  let out : List Output × Except PyError Unit :=
    if resp.status_code = 200 then ([Output.json resp.body], Except.ok ())
    else
      match strPlusInt "Take failed: " resp.status_code with
      | Except.ok m => ([Output.text m], Except.ok ())
      | Except.error e => ([], Except.error e)
  { requests := [req], printed := out.1, result := out.2 }

/-- `CompleteAction.execute`: DELETE `/v1/primitives/queues/{queue}/{task}`;
on a non-200 status build and print `"Complete failed: " + response.status_code`. -/
def CompleteAction.execute (queue task : String) (resp : Response) : ExecResult :=
  let req : Request :=
    { method := Method.delete
      path := renderUrl completeTemplate [("queue", queue), ("task", task)]
      body := none
      headers := [] }
  let out : List Output × Except PyError Unit :=
    if resp.status_code ≠ 200 then
      match strPlusInt "Complete failed: " resp.status_code with
      | Except.ok m => ([Output.text m], Except.ok ())
      | Except.error e => ([], Except.error e)
    else ([], Except.ok ())
  { requests := [req], printed := out.1, result := out.2 }

/-! ### Helper lemmas on the string model -/

lemma str_ext {s t : String} (h : s.data = t.data) : s = t := by
  cases s; cases t; cases h; rfl

@[simp] lemma str_data_append (s t : String) : (s ++ t).data = s.data ++ t.data := rfl

lemma str_empty_data : ("" : String).data = [] := rfl

@[simp] lemma str_append_empty (s : String) : s ++ "" = s :=
  str_ext (by simp [str_empty_data])

@[simp] lemma str_append_assoc (a b c : String) : a ++ b ++ c = a ++ (b ++ c) :=
  str_ext (by simp)

lemma str_length_eq (s : String) : s.length = s.data.length := rfl

@[simp] lemma pyLower_data (s : String) : (pyLower s).data = s.data.map Char.toLower := rfl

@[simp] lemma pyDrop_data (s : String) (n : Nat) : (pyDrop s n).data = s.data.drop n := rfl

@[simp] lemma pyTake_data (s : String) (n : Nat) : (pyTake s n).data = s.data.take n := rfl

lemma pyDrop_zero (s : String) : pyDrop s 0 = s := str_ext (by simp)

lemma isPrefixOf_true_iff (l₁ l₂ : List Char) :
    l₁.isPrefixOf l₂ = true ↔ ∃ t, l₁ ++ t = l₂ := by
  induction l₁ generalizing l₂ with
  | nil => simp [List.isPrefixOf]
  | cons a as ih =>
    cases l₂ with
    | nil => simp [List.isPrefixOf]
    | cons b bs =>
      simp only [List.isPrefixOf, Bool.and_eq_true, beq_iff_eq, ih, List.cons_append,
        List.cons.injEq]
      constructor
      · rintro ⟨rfl, t, rfl⟩; exact ⟨t, rfl, rfl⟩
      · rintro ⟨t, rfl, rfl⟩; exact ⟨rfl, t, rfl⟩

lemma pyStartsWith_iff (s pre : String) :
    pyStartsWith s pre = true ↔ ∃ t, pre.data ++ t = s.data := by
  rw [pyStartsWith, isPrefixOf_true_iff]

lemma pyStartsWith_empty (s : String) : pyStartsWith s "" = true := by
  rw [pyStartsWith_iff]
  exact ⟨s.data, by simp [str_empty_data]⟩

lemma suggestLoop_eq (l : List String) (pre : String) :
    suggestLoop l pre =
      (l.find? (fun q => pyStartsWith (pyLower q) (pyLower pre))).map
        (fun q => pyDrop q pre.length) := by
  induction l with
  | nil => rfl
  | cons q qs ih =>
    by_cases h : pyStartsWith (pyLower q) (pyLower pre) = true
    · simp [suggestLoop, h, List.find?_cons_of_pos]
    · simp only [Bool.not_eq_true] at h
      simp [suggestLoop, h, List.find?_cons_of_neg, ih]

lemma completeLoop_eq (l : List String) (pre : String) :
    completeLoop l pre = l.filter (fun q => pyStartsWith (pyLower q) (pyLower pre)) := by
  induction l with
  | nil => rfl
  | cons q qs ih =>
    by_cases h : pyStartsWith (pyLower q) (pyLower pre) = true
    · simp [completeLoop, h, List.filter_cons, ih]
    · simp only [Bool.not_eq_true] at h
      simp [completeLoop, h, List.filter_cons, ih]

lemma find?_true_head (p : String → Bool) (l : List String) (hp : ∀ a, p a = true) :
    l.find? p = l.head? := by
  cases l with
  | nil => rfl
  | cons a l => rw [List.find?_cons_of_pos _ (hp a)]; rfl

lemma renderUrl_add (queue : String) :
    renderUrl addTemplate [("queue", queue)] = "/v1/primitives/queues/" ++ queue := by
  simp [renderUrl, addTemplate, List.lookup]

lemma renderUrl_take (queue : String) (count : Nat) :
    renderUrl takeTemplate [("queue", queue), ("count", toString count)] =
      "/v1/primitives/queues/" ++ queue ++ "?items=" ++ toString count := by
  simp [renderUrl, takeTemplate, List.lookup]

lemma renderUrl_complete (queue task : String) :
    renderUrl completeTemplate [("queue", queue), ("task", task)] =
      "/v1/primitives/queues/" ++ queue ++ "/" ++ task := by
  simp [renderUrl, completeTemplate, List.lookup]

lemma pyLower_empty : pyLower "" = "" := rfl

/-! ### Claim theorems -/

/-- C2: for every backend response and prefix, `suggest` returns the suffix
past the prefix length of the first fetched name whose lowercase form starts
with the lowercase prefix, and `none` when no fetched name matches. -/
theorem C2_suggest_first_match (resp : NamesResponse) (pre : String) :
    QueueResource.suggest resp pre =
      (List.find? (fun q => pyStartsWith (pyLower q) (pyLower pre))
          (QueueResource.get_queue_names resp)).map (fun q => pyDrop q pre.length) :=
  suggestLoop_eq _ _

/-- C3: `complete` yields exactly the order-preserving subsequence of the
fetched names whose lowercase form starts with the lowercase prefix. -/
theorem C3_complete_filters (resp : NamesResponse) (pre : String) :
    QueueResource.complete resp pre =
      List.filter (fun q => pyStartsWith (pyLower q) (pyLower pre))
        (QueueResource.get_queue_names resp) ∧
    List.Sublist (QueueResource.complete resp pre) (QueueResource.get_queue_names resp) := by
  refine ⟨completeLoop_eq _ _, ?_⟩
  rw [QueueResource.complete, completeLoop_eq]
  exact List.filter_sublist _

/-- C4: the queue-name fetch returns the parsed JSON array exactly on HTTP
200, and an empty list on every other status. -/
theorem C4_get_queue_names_status (resp : NamesResponse) :
    (resp.status_code = 200 → QueueResource.get_queue_names resp = resp.names) ∧
    (resp.status_code ≠ 200 → QueueResource.get_queue_names resp = []) := by
  constructor
  · intro h; simp [QueueResource.get_queue_names, h]
  · intro h; simp [QueueResource.get_queue_names, h]

/-- Witness for C4 at status 200 and at status 404. -/
theorem C4_get_queue_names_status_witness :
    QueueResource.get_queue_names ⟨200, ["orders", "jobs"]⟩ = ["orders", "jobs"] ∧
    QueueResource.get_queue_names ⟨404, ["orders", "jobs"]⟩ = [] :=
  ⟨(C4_get_queue_names_status ⟨200, ["orders", "jobs"]⟩).1 rfl,
   (C4_get_queue_names_status ⟨404, ["orders", "jobs"]⟩).2 (by decide)⟩

/-- C8: with the empty prefix, `suggest` returns the whole first fetched name
(or `none` on an empty fetch) and `complete` yields every fetched name. -/
theorem C8_empty_prefix (resp : NamesResponse) :
    QueueResource.suggest resp "" = (QueueResource.get_queue_names resp).head? ∧
    QueueResource.complete resp "" = QueueResource.get_queue_names resp := by
  constructor
  · rw [QueueResource.suggest, suggestLoop_eq,
      find?_true_head _ _ (fun a => by rw [pyLower_empty]; exact pyStartsWith_empty _)]
    cases (QueueResource.get_queue_names resp).head? with
    | none => rfl
    | some q =>
      rw [Option.map_some', show ("" : String).length = 0 from rfl, pyDrop_zero]
  · rw [QueueResource.complete, completeLoop_eq]
    apply List.filter_eq_self.mpr
    intro a _
    rw [pyLower_empty]
    exact pyStartsWith_empty _

/-- C5: for every queue, payload and response, the add operation issues
exactly one POST to `/v1/primitives/queues/{queue}` with the payload as body
and content-type `text/plain`. -/
theorem C5_add_posts_once (queue data : String) (resp : Response) :
    (AddAction.execute queue data resp).requests =
      [{ method := Method.post, path := "/v1/primitives/queues/" ++ queue,
         body := some data, headers := [("content-type", "text/plain")] }] := by
  simp [AddAction.execute, renderUrl_add]

/-- C6: for every queue, count and response, the take operation issues exactly
one GET to `/v1/primitives/queues/{queue}?items={count}`; on status 200 it
prints the parsed JSON body; omitting the count defaults it to 1. -/
theorem C6_take_gets_once (queue : String) (count : Nat) (resp : Response) :
    (TakeAction.execute queue resp count).requests =
      [{ method := Method.get,
         path := "/v1/primitives/queues/" ++ queue ++ "?items=" ++ toString count,
         body := none, headers := [] }] ∧
    (resp.status_code = 200 →
      (TakeAction.execute queue resp count).printed = [Output.json resp.body] ∧
      (TakeAction.execute queue resp count).result = Except.ok ()) ∧
    TakeAction.execute queue resp = TakeAction.execute queue resp 1 := by
  refine ⟨?_, ?_, rfl⟩
  · simp [TakeAction.execute, renderUrl_take]
  · intro h
    constructor <;> simp [TakeAction.execute, h]

/-- Witness for C6: queue `orders`, count 3, a 200 response with a JSON body. -/
theorem C6_take_gets_once_witness :
    (TakeAction.execute "orders" ⟨200, JsonVal.arr [JsonVal.str "t1"]⟩ 3).printed =
      [Output.json (JsonVal.arr [JsonVal.str "t1"])] :=
  ((C6_take_gets_once "orders" 3 ⟨200, JsonVal.arr [JsonVal.str "t1"]⟩).2.1 rfl).1

/-- C7: for every queue, task and response, the complete operation issues
exactly one DELETE to `/v1/primitives/queues/{queue}/{task}`. -/
theorem C7_complete_deletes_once (queue task : String) (resp : Response) :
    (CompleteAction.execute queue task resp).requests =
      [{ method := Method.delete,
         path := "/v1/primitives/queues/" ++ queue ++ "/" ++ task,
         body := none, headers := [] }] := by
  simp [CompleteAction.execute, renderUrl_complete]

/-- C9: when `suggest` returns a suffix, the first case-insensitively matching
fetched name `N` decomposes as its first `len(pre)` characters followed by the
suffix; when the prefix matches case-exactly, prepending it rebuilds `N`; and
the suffix length is `len(N) - len(pre)`, with `len(pre) ≤ len(N)`. -/
theorem C9_suggest_round_trip (resp : NamesResponse) (pre suf : String)
    (h : QueueResource.suggest resp pre = some suf) :
    ∃ N, List.find? (fun q => pyStartsWith (pyLower q) (pyLower pre))
        (QueueResource.get_queue_names resp) = some N ∧
      pyTake N pre.length ++ suf = N ∧
      (pyStartsWith N pre = true → pre ++ suf = N) ∧
      suf.length = N.length - pre.length ∧
      pre.length ≤ N.length := by
  rw [QueueResource.suggest, suggestLoop_eq] at h
  obtain ⟨N, hfind, hsuf⟩ := Option.map_eq_some'.mp h
  subst hsuf
  have hmatch : pyStartsWith (pyLower N) (pyLower pre) = true := by
    have hm := List.find?_some hfind
    simpa using hm
  obtain ⟨t, ht⟩ := (pyStartsWith_iff _ _).mp hmatch
  have hlen : pre.length ≤ N.length := by
    have h2 := congrArg List.length ht
    simp only [List.length_append, pyLower_data, List.length_map] at h2
    simp only [str_length_eq]
    omega
  refine ⟨N, hfind, ?_, ?_, ?_, hlen⟩
  · apply str_ext
    simp only [str_data_append, pyTake_data, pyDrop_data, List.take_append_drop]
  · intro hx
    obtain ⟨u, hu⟩ := (pyStartsWith_iff _ _).mp hx
    apply str_ext
    have hdrop : N.data.drop pre.length = u := by
      rw [← hu, str_length_eq, List.drop_left]
    simp only [str_data_append, pyDrop_data, hdrop]
    exact hu
  · simp only [str_length_eq, pyDrop_data, List.length_drop]

/-- Witness for C9: fetched names `["Orders"]`, prefix `Or`, suffix `ders`. -/
theorem C9_suggest_round_trip_witness :
    ∃ N, List.find? (fun q => pyStartsWith (pyLower q) (pyLower "Or"))
        (QueueResource.get_queue_names ⟨200, ["Orders"]⟩) = some N ∧
      pyTake N ("Or" : String).length ++ "ders" = N ∧
      (pyStartsWith N "Or" = true → "Or" ++ "ders" = N) ∧
      ("ders" : String).length = N.length - ("Or" : String).length ∧
      ("Or" : String).length ≤ N.length :=
  C9_suggest_round_trip ⟨200, ["Orders"]⟩ "Or" "ders" rfl

/-- C10: on an HTTP 200 response, add and complete print nothing, return
normally (`None`), and have issued exactly one request. -/
theorem C10_success_silent (queue data task : String) (resp : Response)
    (h : resp.status_code = 200) :
    ((AddAction.execute queue data resp).printed = [] ∧
     (AddAction.execute queue data resp).result = Except.ok () ∧
     (AddAction.execute queue data resp).requests.length = 1) ∧
    ((CompleteAction.execute queue task resp).printed = [] ∧
     (CompleteAction.execute queue task resp).result = Except.ok () ∧
     (CompleteAction.execute queue task resp).requests.length = 1) := by
  refine ⟨⟨?_, ?_, rfl⟩, ⟨?_, ?_, rfl⟩⟩ <;>
    simp [AddAction.execute, CompleteAction.execute, h]

/-- Witness for C10 at a concrete 200 response. -/
theorem C10_success_silent_witness :
    (AddAction.execute "orders" "hello" ⟨200, JsonVal.null⟩).printed = [] ∧
    (CompleteAction.execute "orders" "t1" ⟨200, JsonVal.null⟩).printed = [] :=
  ⟨(C10_success_silent "orders" "hello" "t1" ⟨200, JsonVal.null⟩ rfl).1.1,
   (C10_success_silent "orders" "hello" "t1" ⟨200, JsonVal.null⟩ rfl).2.1⟩

/-- C1 (code bug): on a non-200 response each action evaluates
`"... failed: " + response.status_code`, a `str + int` concatenation, so it
raises `TypeError` and prints nothing, whereas the intended behaviour is a
printed message embedding the status code and no exception. Shown here at a
simulated 500 for all three operations. -/
theorem C1_error_paths_raise_typeError :
    (AddAction.execute "orders" "hello" ⟨500, JsonVal.null⟩).result =
      Except.error (PyError.typeError pyConcatErrMsg) ∧
    (AddAction.execute "orders" "hello" ⟨500, JsonVal.null⟩).printed = [] ∧
    (TakeAction.execute "orders" ⟨500, JsonVal.null⟩ 3).result =
      Except.error (PyError.typeError pyConcatErrMsg) ∧
    (TakeAction.execute "orders" ⟨500, JsonVal.null⟩ 3).printed = [] ∧
    (CompleteAction.execute "orders" "t1" ⟨500, JsonVal.null⟩).result =
      Except.error (PyError.typeError pyConcatErrMsg) ∧
    (CompleteAction.execute "orders" "t1" ⟨500, JsonVal.null⟩).printed = [] :=
  ⟨rfl, rfl, rfl, rfl, rfl, rfl⟩
